import Mathlib

/-!
# Verification of the Buddly relay service and client helper

Shallow embedding of the two source files of the repository:
* the Express relay server (endpoints `/generate`, `/followup`, `/retry`,
  the shared `processGenerativeRequest` procedure and the
  `extractAndParseJson` heuristic), and
* the client-side request helper (`sendRequest`, `generateCode`,
  `followUp`, `retryWithJson`).

JavaScript strings are modelled as `List Char`.  JavaScript values that
can occur in a JSON-parsed request body, in a parsed backend reply, or as
the result of `JSON.parse`, are modelled by the inductive type `Json`
(numbers as integers; no claim depends on non-integral numbers).
`JSON.parse` itself is a platform built-in, not part of this repository,
so every function that calls it is parameterised by an arbitrary
`parse : Str → Option Json` (`none` models a thrown parse error).
Likewise the single outbound `fetch` to the inference backend is
parameterised by the outcome the network delivers for each successive
call (`backend : Nat → FetchOutcome`; the code performs exactly one call,
which consumes `backend 0`).
-/

set_option autoImplicit false
set_option linter.unusedVariables false

namespace Buddly

/-- JavaScript strings, modelled as lists of characters. -/
abbrev Str := List Char

/-- Embed a Lean string literal as a modelled JavaScript string. -/
def toStr (s : String) : Str := s.data

/-- The opening-brace character searched for by `extractAndParseJson`. -/
def lbrace : Char := '\x7b'

/-- The closing-brace character searched for by `extractAndParseJson`. -/
def rbrace : Char := '\x7d'

/-- JavaScript values arising from JSON: request bodies parsed by
`express.json()`, backend replies parsed by `response.json()`, and
results of `JSON.parse`. -/
inductive Json where
  | null
  | bool (b : Bool)
  | num (n : Int)
  | str (s : Str)
  | arr (elems : List Json)
  | obj (fields : List (Str × Json))

/-- JavaScript truthiness of a `Json` value: `null`, `false`, `0` and the
empty string are falsy; every object and array is truthy. -/
def Json.truthy : Json → Bool
  | .null => false
  | .bool b => b
  | .num n => n != 0
  | .str s => !s.isEmpty
  | .arr _ => true
  | .obj _ => true

/-- JavaScript property access `v[k]` on a JSON-derived value: `none`
models `undefined` (absent key, or access on a non-object).  With
duplicate keys `JSON.parse` keeps the last occurrence, hence the
reversed search. -/
def Json.getField : Json → Str → Option Json
  | .obj fields, k => (fields.reverse.find? (fun p => p.1 == k)).map (·.2)
  | _, _ => none

/-- JavaScript `String.prototype.trim()` (whitespace stripped from both
ends). -/
def jsTrim (s : Str) : Str :=
  ((s.dropWhile Char.isWhitespace).reverse.dropWhile Char.isWhitespace).reverse

/-- JavaScript `String.prototype.substring(a, b)`: both indices are
clamped to the length and swapped when out of order. -/
def jsSubstring (s : Str) (a b : Nat) : Str :=
  let a' := min a s.length
  let b' := min b s.length
  (s.drop (min a' b')).take (max a' b' - min a' b')

/-- JavaScript `String.prototype.slice(a, b)` for non-negative indices:
clamped, empty when `b ≤ a`, no swapping. -/
def jsSlice (s : Str) (a b : Nat) : Str :=
  (s.drop (min a s.length)).take (min b s.length - min a s.length)

/-- JavaScript `String.prototype.indexOf(c)` for a single-character
needle: index of the first occurrence (`none` models `-1`). -/
def strIndexOf (s : Str) (c : Char) : Option Nat :=
  s.findIdx? (· == c)

/-- JavaScript `String.prototype.lastIndexOf(c)` for a single-character
needle: index of the last occurrence (`none` models `-1`). -/
def strLastIndexOf (s : Str) (c : Char) : Option Nat :=
  (s.reverse.findIdx? (· == c)).map (fun k => s.length - 1 - k)

/-- Result of `extractAndParseJson`, together with the diagnostic branch
the function takes (the source signals the branch on the console and
returns `null` for both failure branches; `malformed` retains the
offending substring truncated to 500 characters, as logged). -/
inductive ExtractResult where
  | noStructure
  | malformed (snippet : Str)
  | parsed (v : Json)

/-- `extractAndParseJson(text)` with its diagnostic branch: find the first
brace and the last closing brace; fail (`noStructure`) when either is
absent or the closing one comes first; otherwise strictly parse the
inclusive substring, failing (`malformed`) when the parse throws. -/
def extractAndParseJsonFull (parse : Str → Option Json) (text : Str) : ExtractResult :=
  match strIndexOf text lbrace, strLastIndexOf text rbrace with
  | none, _ => .noStructure
  | some _, none => .noStructure
  | some startIndex, some endIndex =>
    if endIndex < startIndex then .noStructure
    else
      let jsonString := jsSubstring text startIndex (endIndex + 1)
      match parse jsonString with
      | some v => .parsed v
      | none => .malformed (jsSubstring jsonString 0 500)

/-- The value `extractAndParseJson(text)` returns: the parsed object, or
`none` for `null` on either failure branch. -/
def extractAndParseJson (parse : Str → Option Json) (text : Str) : Option Json :=
  match extractAndParseJsonFull parse text with
  | .parsed v => some v
  | _ => none

/-- Decimal digits of a natural number. -/
def natToStr (n : Nat) : Str := Nat.toDigits 10 n

/-- JavaScript decimal rendering of an integer. -/
def intToStr : Int → Str
  | .ofNat n => natToStr n
  | .negSucc n => '-' :: natToStr (n + 1)

/-- Hexadecimal digit for `JSON.stringify` control-character escapes. -/
def hexDigit (n : Nat) : Char :=
  if n < 10 then Char.ofNat ('0'.toNat + n) else Char.ofNat ('a'.toNat + (n - 10))

/-- `JSON.stringify` escaping of one character inside a string value. -/
def escapeJsonChar (c : Char) : Str :=
  if c = '"' then ['\\', '"']
  else if c = '\\' then ['\\', '\\']
  else if c = '\n' then ['\\', 'n']
  else if c = '\r' then ['\\', 'r']
  else if c = '\t' then ['\\', 't']
  else if c = '\x08' then ['\\', 'b']
  else if c = '\x0c' then ['\\', 'f']
  else if c.toNat < 32 then ['\\', 'u', '0', '0', hexDigit (c.toNat / 16), hexDigit (c.toNat % 16)]
  else [c]

/-- `JSON.stringify` rendering of a string value, quoted and escaped. -/
def quoteJson (s : Str) : Str := '"' :: (s.map escapeJsonChar).flatten ++ ['"']

mutual

/-- `JSON.stringify` restricted to JSON-representable values (the only
values the handlers ever pass it, since request bodies come from
`express.json()`). -/
def Json.stringify : Json → Str
  | .null => toStr "null"
  | .bool true => toStr "true"
  | .bool false => toStr "false"
  | .num n => intToStr n
  | .str s => quoteJson s
  | .arr xs => '[' :: stringifyElems xs ++ [']']
  | .obj fs => lbrace :: stringifyFields fs ++ [rbrace]

/-- Comma-separated `JSON.stringify` rendering of array elements. -/
def stringifyElems : List Json → Str
  | [] => []
  | [x] => Json.stringify x
  | x :: y :: rest => Json.stringify x ++ ',' :: stringifyElems (y :: rest)

/-- Comma-separated `JSON.stringify` rendering of object fields. -/
def stringifyFields : List (Str × Json) → Str
  | [] => []
  | [(k, v)] => quoteJson k ++ ':' :: Json.stringify v
  | (k, v) :: p :: rest => quoteJson k ++ ':' :: Json.stringify v ++ ',' :: stringifyFields (p :: rest)

end

mutual

/-- JavaScript `String(x)` conversion, as performed by template-literal
interpolation, restricted to JSON-derived values. -/
def Json.jsToString : Json → Str
  | .null => toStr "null"
  | .bool true => toStr "true"
  | .bool false => toStr "false"
  | .num n => intToStr n
  | .str s => s
  | .arr xs => joinElems xs
  | .obj _ => toStr "[object Object]"

/-- `Array.prototype.toString` = `join(",")`, under which a `null`
element renders empty. -/
def joinElems : List Json → Str
  | [] => []
  | [.null] => []
  | [x] => Json.jsToString x
  | .null :: y :: rest => ',' :: joinElems (y :: rest)
  | x :: y :: rest => Json.jsToString x ++ ',' :: joinElems (y :: rest)

end

/-- An HTTP response produced by an endpoint handler
(`res.status(n).json(body)`; `res.json(body)` is status 200). -/
structure HttpResponse where
  status : Nat
  body : Json

/-- A JavaScript runtime error that escapes a handler (the only kind the
handlers can raise is a `TypeError` from calling a string method on a
non-string). -/
inductive JsError where
  | typeError

/-- Outcome the network delivers for one outbound `fetch` to the
inference backend: the call throws (backend unreachable), or it replies
with an ok/error status and a body whose `response.json()` result is
`some data` (`none` models a body that is not JSON, so `.json()`
throws). -/
inductive FetchOutcome where
  | throws
  | replies (ok : Bool) (body : Option Json)

/-- The fixed error message of the generation-error payload. -/
def genErrorMessage : Str := toStr "Failed to generate a valid and complete application."

/-- The generation-error payload: HTTP 200 body
`error / errorType / rawResponse` with the raw text truncated to 1000
characters. -/
def genErrorPayload (raw : Str) : Json :=
  .obj [ (toStr "error", .str genErrorMessage),
         (toStr "errorType", .str (toStr "GENERATION_ERROR")),
         (toStr "rawResponse", .str (jsSubstring raw 0 1000)) ]

/-- One field of the parsed bundle passes the shape check: present, a
string, and truthy (non-empty). -/
def isNonEmptyStrField : Option Json → Bool
  | some (.str s) => !s.isEmpty
  | _ => false

/-- The shape check of `processGenerativeRequest`: the parsed value has
`html`, `css` and `js` fields, each a non-empty string (the source
throws exactly when this fails). -/
def isValidBundle (parsed : Json) : Bool :=
  isNonEmptyStrField (parsed.getField (toStr "html")) &&
  isNonEmptyStrField (parsed.getField (toStr "css")) &&
  isNonEmptyStrField (parsed.getField (toStr "js"))

/-- Result of executing the `try` block of `processGenerativeRequest`:
either the validated bundle reaches `res.json(parsed)`, or an error is
thrown and caught, with `raw` the value of `rawResponseText` at that
moment (initially the empty string; a non-string only when the backend's
`response` field is a truthy non-string, in which case
`extractAndParseJson` throws a `TypeError` that the `catch` receives). -/
inductive TryOutcome where
  | success (parsed : Json)
  | caught (raw : Json)

/-- The `try` block of `processGenerativeRequest`: issue the fetch, check
`ollamaResponse.ok`, read `data.response`, run extraction, check
truthiness and bundle shape. -/
def tryBody (parse : Str → Option Json) (o : FetchOutcome) : TryOutcome :=
  match o with
  | .throws => .caught (.str [])
  | .replies ok body? =>
    if !ok then .caught (.str [])
    else
      match body? with
      | none => .caught (.str [])
      | some data =>
        match data.getField (toStr "response") with
        | none => .caught (.str [])
        | some r =>
          if !r.truthy then .caught (.str [])
          else
            match r with
            | .str text =>
              match extractAndParseJson parse text with
              | none => .caught (.str text)
              | some parsed =>
                if !parsed.truthy then .caught (.str text)
                else if !(isValidBundle parsed) then .caught (.str text)
                else .success parsed
            | _ => .caught r

/-- `processGenerativeRequest(prompt, res)`: run the try block with the
outcome of the single backend call (`backend 0`); on success respond 200
with the bundle; on a caught error respond 200 with the generation-error
payload — unless `rawResponseText` is not a string, in which case
`rawResponseText.substring(0, 1000)` inside the `catch` throws a
`TypeError` that escapes the handler. -/
def processGenerativeRequest (parse : Str → Option Json)
    (backend : Nat → FetchOutcome) (prompt : Str) : Except JsError HttpResponse :=
  match tryBody parse (backend 0) with
  | .success parsed => .ok ⟨200, parsed⟩
  | .caught raw =>
    match raw with
    | .str s => .ok ⟨200, genErrorPayload s⟩
    | _ => .error .typeError

/-- A `res.status(400).json(\x7b error: msg \x7d)` validation response
body. -/
def validationPayload (msg : Str) : Json := .obj [(toStr "error", .str msg)]

/-- The composite instruction of `/followup`:
`` `... Current Code: ${JSON.stringify(code)}. User's Change Request: "${prompt}". ...` ``. -/
def followupFullPrompt (code prompt : Json) : Str :=
  toStr "The user wants to modify the existing application. Current Code: " ++
  Json.stringify code ++
  toStr ". User's Change Request: \"" ++
  Json.jsToString prompt ++
  toStr "\". Generate the complete, updated code."

/-- `badJson.slice(0, 200)` as interpolated into the retry template:
strings slice to their first 200 characters; arrays also have `slice`,
yielding an array the template then converts with `String(·)`; any other
value has no `slice` method, so the expression throws a `TypeError`
(`none`). -/
def badJsonSnippet : Json → Option Str
  | .str s => some (jsSlice s 0 200)
  | .arr xs => some (Json.jsToString (.arr (xs.take 200)))
  | _ => none

/-- The composite instruction of `/retry`, given the already-sliced
snippet of the failed output. -/
def retryFullPrompt (originalPrompt : Json) (snippet : Str) : Str :=
  toStr "Your previous response was invalid JSON. Invalid response snippet: \"" ++
  snippet ++
  toStr "...\". The original request was: \"" ++
  Json.jsToString originalPrompt ++
  toStr "\". You MUST try again and provide ONLY a valid JSON object."

/-- The `/generate` handler: `userPrompt = req.body?.prompt || ''`;
reject with 400 when `userPrompt.trim()` is empty; otherwise forward the
prompt unchanged to `processGenerativeRequest`. Calling `.trim()` on a
truthy non-string throws a `TypeError`. -/
def generateHandler (parse : Str → Option Json) (backend : Nat → FetchOutcome)
    (body : Json) : Except JsError HttpResponse :=
  let userPrompt : Json :=
    match body.getField (toStr "prompt") with
    | some v => if v.truthy then v else .str []
    | none => .str []
  match userPrompt with
  | .str s =>
    if (jsTrim s).isEmpty then .ok ⟨400, validationPayload (toStr "prompt is required")⟩
    else processGenerativeRequest parse backend s
  | _ => .error .typeError

/-- The `/followup` handler: 400 when `prompt` or `code` is missing or
falsy; otherwise build the composite instruction and run the shared
procedure. -/
def followupHandler (parse : Str → Option Json) (backend : Nat → FetchOutcome)
    (body : Json) : Except JsError HttpResponse :=
  match body.getField (toStr "prompt"), body.getField (toStr "code") with
  | some prompt, some code =>
    if !prompt.truthy || !code.truthy then
      .ok ⟨400, validationPayload (toStr "A prompt and code are required.")⟩
    else processGenerativeRequest parse backend (followupFullPrompt code prompt)
  | _, _ => .ok ⟨400, validationPayload (toStr "A prompt and code are required.")⟩

/-- The `/retry` handler: 400 when `originalPrompt` or `badJson` is
missing or falsy; otherwise build the composite instruction (slicing the
first 200 characters of `badJson`) and run the shared procedure.
`badJson.slice` throws a `TypeError` on a truthy value that is neither a
string nor an array. -/
def retryHandler (parse : Str → Option Json) (backend : Nat → FetchOutcome)
    (body : Json) : Except JsError HttpResponse :=
  match body.getField (toStr "originalPrompt"), body.getField (toStr "badJson") with
  | some originalPrompt, some badJson =>
    if !originalPrompt.truthy || !badJson.truthy then
      .ok ⟨400, validationPayload (toStr "Original prompt and bad JSON are required.")⟩
    else
      match badJsonSnippet badJson with
      | some snippet =>
        processGenerativeRequest parse backend (retryFullPrompt originalPrompt snippet)
      | none => .error .typeError
  | _, _ => .ok ⟨400, validationPayload (toStr "Original prompt and bad JSON are required.")⟩

/-- The outbound request body `processGenerativeRequest` sends to the
inference backend. -/
structure OllamaRequest where
  model : Str
  system : Str
  prompt : Str
  format : Str
  stream : Bool
  temperature : Rat

/-- The body of the single `fetch` in `processGenerativeRequest`:
`\x7b model, system, prompt, format: 'json', stream: false,`
`options: \x7b temperature: 0.2 \x7d \x7d`. The system directive's
content is fixed opaque configuration (spec §4.1), and the model name
comes from configuration (default `"codellama"`), so both are
parameters. -/
def ollamaRequestOf (systemDirective modelName prompt : Str) : OllamaRequest :=
  ⟨modelName, systemDirective, prompt, toStr "json", false, 2 / 10⟩

/-- The default model identifier (`process.env.OLLAMA_MODEL` absent). -/
def defaultModelName : Str := toStr "codellama"

/-! ## Client-side request helper (`src/services/apiService.js`) -/

/-- Failure modes of the client helper: the underlying `fetch` throws
(`transport`, propagated to the caller after being logged), a
`response.json()` call throws (`jsonParse`, likewise propagated), or the
helper itself raises `new Error(...)` for a non-ok status
(`apiError msg`). -/
inductive ClientError where
  | transport
  | jsonParse
  | apiError (msg : Str)

/-- Outcome the network delivers for the client's `fetch`: a thrown
transport error, or a reply with an ok flag and a body whose
`response.json()` result is `some data` (`none` models a non-JSON body,
so `.json()` throws). -/
inductive ClientOutcome where
  | netThrows
  | replies (ok : Bool) (body : Option Json)

/-- The generic fallback message of the client helper. -/
def apiFallbackMessage : Str := toStr "API request failed"

/-- The POST request built by `sendRequest(endpoint, body)`:
`fetch(API_BASE_URL + '/' + endpoint, \x7b method: 'POST',`
`headers: ..., body: JSON.stringify(body) \x7d)`. -/
structure ClientRequest where
  url : Str
  httpMethod : Str
  contentType : Str
  payload : Str

/-- The request `sendRequest` sends for a given endpoint and body. -/
def builtClientRequest (baseUrl endpoint : Str) (body : Json) : ClientRequest :=
  ⟨baseUrl ++ '/' :: endpoint, toStr "POST", toStr "application/json", Json.stringify body⟩

/-- `sendRequest(endpoint, body)`: on a non-ok status, parse the error
body and throw `new Error(errData.error || 'API request failed')`; on an
ok status return `response.json()`; any error thrown inside (transport
failure, `.json()` failure, or the raised `Error`) is logged and
rethrown unchanged by the `catch`.  The helper performs exactly one
`fetch`, consuming `net 0`. -/
def sendRequest (net : Nat → ClientOutcome) (endpoint : Str) (body : Json) :
    Except ClientError Json :=
  match net 0 with
  | .netThrows => .error .transport
  | .replies ok body? =>
    if !ok then
      match body? with
      | none => .error .jsonParse
      | some errData =>
        .error (.apiError (
          match errData.getField (toStr "error") with
          | some v => if v.truthy then Json.jsToString v else apiFallbackMessage
          | none => apiFallbackMessage))
    else
      match body? with
      | none => .error .jsonParse
      | some j => .ok j

/-- `generateCode(prompt)` = `sendRequest('generate', \x7b prompt \x7d)`. -/
def generateCode (net : Nat → ClientOutcome) (prompt : Json) : Except ClientError Json :=
  sendRequest net (toStr "generate") (.obj [(toStr "prompt", prompt)])

/-- `followUp(prompt, code)` = `sendRequest('followup', \x7b prompt, code \x7d)`. -/
def followUp (net : Nat → ClientOutcome) (prompt code : Json) : Except ClientError Json :=
  sendRequest net (toStr "followup") (.obj [(toStr "prompt", prompt), (toStr "code", code)])

/-- `retryWithJson(originalPrompt, badJson)` = `sendRequest('retry', ...)`. -/
def retryWithJson (net : Nat → ClientOutcome) (originalPrompt badJson : Json) :
    Except ClientError Json :=
  sendRequest net (toStr "retry")
    (.obj [(toStr "originalPrompt", originalPrompt), (toStr "badJson", badJson)])

/-- The request `generateCode(prompt)` sends. -/
def generateCodeRequest (baseUrl : Str) (prompt : Json) : ClientRequest :=
  builtClientRequest baseUrl (toStr "generate") (.obj [(toStr "prompt", prompt)])

/-- The request `followUp(prompt, code)` sends. -/
def followUpRequest (baseUrl : Str) (prompt code : Json) : ClientRequest :=
  builtClientRequest baseUrl (toStr "followup")
    (.obj [(toStr "prompt", prompt), (toStr "code", code)])

/-- The request `retryWithJson(originalPrompt, badJson)` sends. -/
def retryWithJsonRequest (baseUrl : Str) (originalPrompt badJson : Json) : ClientRequest :=
  builtClientRequest baseUrl (toStr "retry")
    (.obj [(toStr "originalPrompt", originalPrompt), (toStr "badJson", badJson)])

/-! ## Derived predicates -/

/-- The failure conditions claim C1 enumerates, over the outcome of the
single backend call: the call fails (throws / non-success status /
non-JSON reply / missing-or-falsy output field), JSON extraction fails on
the output text, or the parsed result is falsy or not a valid bundle. -/
def generationFails (parse : Str → Option Json) : FetchOutcome → Prop
  | .throws => True
  | .replies ok body? =>
    ok = false ∨ body? = none ∨
    (∃ data, body? = some data ∧
      (data.getField (toStr "response") = none ∨
       (∃ r, data.getField (toStr "response") = some r ∧ r.truthy = false) ∨
       (∃ s, data.getField (toStr "response") = some (.str s) ∧
         (extractAndParseJson parse s = none ∨
          (∃ v, extractAndParseJson parse s = some v ∧
            (v.truthy = false ∨ isValidBundle v = false))))))

/-- The error-response shape required by claim C1: HTTP 200 with a body
carrying a non-empty error string, errorType `"GENERATION_ERROR"`, and a
rawResponse string of at most 1000 characters. -/
def isGenerationErrorResponse (res : Except JsError HttpResponse) : Prop :=
  ∃ b, res = .ok ⟨200, b⟩ ∧
    (∃ e, b.getField (toStr "error") = some (.str e) ∧ e ≠ []) ∧
    b.getField (toStr "errorType") = some (.str (toStr "GENERATION_ERROR")) ∧
    (∃ raw, b.getField (toStr "rawResponse") = some (.str raw) ∧ raw.length ≤ 1000)

/-- Truthiness of a possibly-absent field (`undefined` is falsy). -/
def truthyField : Option Json → Bool
  | none => false
  | some v => v.truthy

/-- A possibly-absent field that is absent, a string, or falsy — the
shapes on which the handlers' string-method calls cannot throw. -/
def isStrOrFalsy : Option Json → Bool
  | none => true
  | some (.str _) => true
  | some v => !v.truthy

/-- The backend outcome carries a textual (or absent/falsy) `response`
field, so `rawResponseText` can only ever hold a string. -/
def backendResponseTextual : FetchOutcome → Bool
  | .throws => true
  | .replies _ none => true
  | .replies _ (some data) =>
    match data.getField (toStr "response") with
    | none => true
    | some (.str _) => true
    | some r => !r.truthy

/-! ## Concrete fixtures used by witnesses and counterexamples -/

/-- A strict-parse oracle that rejects every input, modelling
`JSON.parse` on non-JSON text. -/
def rejectParse : Str → Option Json := fun _ => none

/-- A strict-parse oracle recognising the single text `\x7b"a":1\x7d`. -/
def sampleParse : Str → Option Json := fun s =>
  if s == toStr "\x7b\"a\":1\x7d" then some (.obj [(toStr "a", .num 1)]) else none

/-- A backend whose every call throws (inference server unreachable). -/
def downBackend : Nat → FetchOutcome := fun _ => .throws

/-- A sample valid three-field bundle. -/
def sampleBundle : Json :=
  .obj [ (toStr "html", .str (toStr "<p>hi</p>")),
         (toStr "css", .str (toStr "p")),
         (toStr "js", .str (toStr "x")) ]

/-- A strict-parse oracle recognising the single text `\x7bB\x7d` as
`sampleBundle`. -/
def bundleParse : Str → Option Json := fun s =>
  if s == toStr "\x7bB\x7d" then some sampleBundle else none

/-- A backend that replies ok with a text response embedding `\x7bB\x7d`. -/
def bundleBackend : Nat → FetchOutcome := fun _ =>
  .replies true (some (.obj [(toStr "response", .str (toStr "ok \x7bB\x7d done"))]))

/-- A bundle whose `js` field is the empty string (the spec's own example
of a rejected bundle). -/
def emptyJsBundle : Json :=
  .obj [ (toStr "html", .str (toStr "<p>hi</p>")),
         (toStr "css", .str (toStr "p")),
         (toStr "js", .str []) ]

/-- A strict-parse oracle recognising the single text `\x7bE\x7d` as
`emptyJsBundle`. -/
def emptyJsParse : Str → Option Json := fun s =>
  if s == toStr "\x7bE\x7d" then some emptyJsBundle else none

/-- A backend that replies ok with a text response embedding `\x7bE\x7d`. -/
def emptyJsBackend : Nat → FetchOutcome := fun _ =>
  .replies true (some (.obj [(toStr "response", .str (toStr "ok \x7bE\x7d"))]))

/-- A `/followup` body whose two fields are both present but whose
`prompt` is the empty string. -/
def emptyPromptFollowupBody : Json :=
  .obj [(toStr "prompt", .str []), (toStr "code", .str (toStr "x"))]

/-- A client-side network that always replies with a non-ok status and
the error body `\x7b"error":"boom"\x7d`. -/
def errNet : Nat → ClientOutcome := fun _ =>
  .replies false (some (.obj [(toStr "error", .str (toStr "boom"))]))

/-! ## Helper lemmas -/

theorem jsSubstring_zero (s : Str) (n : Nat) : jsSubstring s 0 n = s.take n := by
  simp [jsSubstring]

theorem jsSlice_zero (s : Str) (n : Nat) : jsSlice s 0 n = s.take n := by
  simp [jsSlice]

theorem length_jsSubstring_zero_le (s : Str) (n : Nat) :
    (jsSubstring s 0 n).length ≤ n := by
  rw [jsSubstring_zero]
  exact (List.length_take n s).trans_le (Nat.min_le_left _ _)

/-- A valid bundle is an object, hence truthy. -/
theorem truthy_of_isValidBundle {v : Json} (h : isValidBundle v = true) :
    v.truthy = true := by
  cases v with
  | obj fs => rfl
  | arr xs => rfl
  | null => simp [isValidBundle, Json.getField, isNonEmptyStrField] at h
  | bool b => simp [isValidBundle, Json.getField, isNonEmptyStrField] at h
  | num n => simp [isValidBundle, Json.getField, isNonEmptyStrField] at h
  | str s => simp [isValidBundle, Json.getField, isNonEmptyStrField] at h

/-- If the guard of `extractAndParseJson` passes and the strict parse of
the brace-delimited substring succeeds, extraction returns exactly the
parsed value. -/
theorem extract_general (parse : Str → Option Json) (text : Str) (i j : Nat) (v : Json)
    (hi : strIndexOf text lbrace = some i)
    (hj : strLastIndexOf text rbrace = some j)
    (hij : i ≤ j)
    (hp : parse (jsSubstring text i (j + 1)) = some v) :
    extractAndParseJson parse text = some v := by
  simp [extractAndParseJson, extractAndParseJsonFull, hi, hj, Nat.not_lt.mpr hij, hp]

/-- The first occurrence of `c` in `pre ++ mid ++ post` is at `mid`'s
head when `pre` avoids `c` and `mid` starts with it. -/
theorem strIndexOf_concat (pre mid post : Str) (c : Char)
    (hpre : ∀ a ∈ pre, a ≠ c) (hmid : mid.head? = some c) :
    strIndexOf (pre ++ mid ++ post) c = some pre.length := by
  cases mid with
  | nil => simp at hmid
  | cons m tl =>
    have hm : (m == c) = true := by
      have : m = c := by simpa using hmid
      simp [this]
    have hpre' : pre.findIdx? (· == c) = none := by
      rw [List.findIdx?_eq_none_iff]
      intro x hx
      simpa using hpre x hx
    rw [strIndexOf, List.append_assoc, List.findIdx?_append, hpre', List.cons_append,
      List.findIdx?_cons, hm]
    simp

/-- The last occurrence of `c` in `pre ++ mid ++ post` is at `mid`'s last
position when `post` avoids `c` and `mid` ends with it. -/
theorem strLastIndexOf_concat (pre mid post : Str) (c : Char)
    (hpost : ∀ a ∈ post, a ≠ c) (hmid : mid.getLast? = some c) :
    strLastIndexOf (pre ++ mid ++ post) c = some (pre.length + mid.length - 1) := by
  have hrev : mid.reverse.head? = some c := by
    rwa [List.head?_reverse]
  cases hm : mid.reverse with
  | nil => rw [hm] at hrev; simp at hrev
  | cons m tl =>
    rw [hm] at hrev
    have hmc : (m == c) = true := by
      have : m = c := by simpa using hrev
      simp [this]
    have hpost' : post.reverse.findIdx? (· == c) = none := by
      rw [List.findIdx?_eq_none_iff]
      intro x hx
      simp only [List.mem_reverse] at hx
      simpa using hpost x hx
    have hmlen : mid.length = tl.length + 1 := by
      have h1 := congrArg List.length hm
      simpa using h1
    rw [strLastIndexOf]
    rw [show (pre ++ mid ++ post).reverse = post.reverse ++ (mid.reverse ++ pre.reverse) by
      simp]
    rw [hm, List.findIdx?_append, hpost', List.cons_append, List.findIdx?_cons, hmc]
    simp only [Option.or_none, Option.none_or, Option.map_some', Option.map_map,
      List.length_append, List.length_reverse, if_true, Function.comp_apply]
    congr 1
    omega

/-- The substring the extractor cuts out of `pre ++ mid ++ post` between
`mid`'s end positions is `mid` itself. -/
theorem jsSubstring_concat (pre mid post : Str) :
    jsSubstring (pre ++ mid ++ post) pre.length (pre.length + mid.length) = mid := by
  have hlen : (pre ++ mid ++ post).length = pre.length + mid.length + post.length := by
    simp [List.length_append]
    omega
  rw [jsSubstring]
  simp only [hlen]
  rw [show min pre.length (pre.length + mid.length + post.length) = pre.length by omega]
  rw [show min (pre.length + mid.length) (pre.length + mid.length + post.length)
      = pre.length + mid.length by omega]
  rw [show min pre.length (pre.length + mid.length) = pre.length by omega]
  rw [show max pre.length (pre.length + mid.length) = pre.length + mid.length by omega]
  rw [show pre.length + mid.length - pre.length = mid.length by omega]
  rw [List.append_assoc, List.drop_left, List.take_left]

/-- A well-formed brace-delimited fragment surrounded by brace-free prose
is extracted and parsed exactly. -/
theorem extract_prose (parse : Str → Option Json) (pre mid post : Str) (v : Json)
    (hpre : ∀ a ∈ pre, a ≠ lbrace) (hpost : ∀ a ∈ post, a ≠ rbrace)
    (hhead : mid.head? = some lbrace) (hlast : mid.getLast? = some rbrace)
    (hp : parse mid = some v) :
    extractAndParseJson parse (pre ++ mid ++ post) = some v := by
  have hmlen : 1 ≤ mid.length := by
    cases mid with
    | nil => simp at hhead
    | cons m tl => simp
  have hi := strIndexOf_concat pre mid post lbrace hpre hhead
  have hj := strLastIndexOf_concat pre mid post rbrace hpost hlast
  apply extract_general parse _ _ _ v hi hj (by omega)
  rw [show pre.length + mid.length - 1 + 1 = pre.length + mid.length by omega]
  rw [jsSubstring_concat]
  exact hp

/-- The `try` block result when `rawResponseText` was a string at the
moment of the caught error: the generation-error payload at HTTP 200. -/
theorem proc_of_caught_str {parse : Str → Option Json} {backend : Nat → FetchOutcome}
    {prompt s : Str} (h : tryBody parse (backend 0) = .caught (.str s)) :
    processGenerativeRequest parse backend prompt = .ok ⟨200, genErrorPayload s⟩ := by
  simp [processGenerativeRequest, h]

/-- The `try` block result on success: the bundle at HTTP 200. -/
theorem proc_of_success {parse : Str → Option Json} {backend : Nat → FetchOutcome}
    {prompt : Str} {v : Json} (h : tryBody parse (backend 0) = .success v) :
    processGenerativeRequest parse backend prompt = .ok ⟨200, v⟩ := by
  simp [processGenerativeRequest, h]

/-- The shared procedure responds with status 200 or escapes with a
`TypeError`; it never produces any other status. -/
theorem proc_shape (parse : Str → Option Json) (backend : Nat → FetchOutcome) (prompt : Str) :
    (∃ b, processGenerativeRequest parse backend prompt = .ok ⟨200, b⟩) ∨
    processGenerativeRequest parse backend prompt = .error .typeError := by
  unfold processGenerativeRequest
  rcases h : tryBody parse (backend 0) with v | raw
  · exact Or.inl ⟨v, rfl⟩
  · cases raw with
    | str s => exact Or.inl ⟨genErrorPayload s, rfl⟩
    | null => exact Or.inr rfl
    | bool b => exact Or.inr rfl
    | num n => exact Or.inr rfl
    | arr xs => exact Or.inr rfl
    | obj fs => exact Or.inr rfl

/-- The shared procedure depends on the network only through the result
of the single call it makes (`backend 0`). -/
theorem proc_congr {parse : Str → Option Json} {backend backend' : Nat → FetchOutcome}
    {prompt : Str} (h : backend' 0 = backend 0) :
    processGenerativeRequest parse backend' prompt =
      processGenerativeRequest parse backend prompt := by
  simp [processGenerativeRequest, h]

/-- The generation-error payload satisfies C1's response-shape predicate. -/
theorem isGenerationErrorResponse_payload (s : Str) :
    isGenerationErrorResponse (.ok ⟨200, genErrorPayload s⟩) :=
  ⟨genErrorPayload s, rfl, ⟨genErrorMessage, rfl, by decide⟩, rfl,
    ⟨jsSubstring s 0 1000, rfl, length_jsSubstring_zero_le s 1000⟩⟩

/-- Under any of C1's failure conditions the shared procedure responds
with the generation-error payload for some raw string. -/
theorem proc_generationFails {parse : Str → Option Json} {backend : Nat → FetchOutcome}
    {prompt : Str} (h : generationFails parse (backend 0)) :
    ∃ s, processGenerativeRequest parse backend prompt = .ok ⟨200, genErrorPayload s⟩ := by
  rcases ho : backend 0 with _ | ⟨ok, body?⟩
  · exact ⟨[], proc_of_caught_str (by simp [tryBody, ho])⟩
  · rw [ho] at h
    cases ok
    · exact ⟨[], proc_of_caught_str (by simp [tryBody, ho])⟩
    · cases body? with
      | none => exact ⟨[], proc_of_caught_str (by simp [tryBody, ho])⟩
      | some data =>
        simp only [generationFails] at h
        rcases h with h | h | ⟨data', hdd, hd⟩
        · exact absurd h (by simp)
        · exact absurd h (by simp)
        · have hde : data' = data := by
            have := hdd.symm
            simpa using this
          subst hde
          rcases hd with hresp | ⟨r, hr, hrf⟩ | ⟨s, hs, hfail⟩
          · exact ⟨[], proc_of_caught_str (by simp [tryBody, ho, hresp])⟩
          · exact ⟨[], proc_of_caught_str (by simp [tryBody, ho, hr, hrf])⟩
          · rcases heq : s with _ | ⟨c, tl⟩
            · exact ⟨[], proc_of_caught_str (by
                subst heq
                simp [tryBody, ho, hs, Json.truthy])⟩
            · have hsne : s ≠ [] := by rw [heq]; simp
              have htruthy : (Json.str s).truthy = true := by simp [Json.truthy, hsne]
              refine ⟨s, proc_of_caught_str ?_⟩
              rcases hfail with he | ⟨v, he, hvf | hvb⟩
              · simp [tryBody, ho, hs, htruthy, he]
              · simp [tryBody, ho, hs, htruthy, he, hvf]
              · by_cases hvt : v.truthy = true
                · simp [tryBody, ho, hs, htruthy, he, hvb, hvt]
                · simp [tryBody, ho, hs, htruthy, he, hvt]

/-- When the backend's `response` field is textual (or absent/falsy) the
shared procedure always returns an HTTP response, never a `TypeError`. -/
theorem proc_ok_of_textual (parse : Str → Option Json) (backend : Nat → FetchOutcome)
    (prompt : Str) (h : backendResponseTextual (backend 0) = true) :
    ∃ r, processGenerativeRequest parse backend prompt = .ok r := by
  rcases ho : backend 0 with _ | ⟨ok, body?⟩
  · exact ⟨⟨200, genErrorPayload []⟩, proc_of_caught_str (by simp [tryBody, ho])⟩
  · cases ok
    · exact ⟨⟨200, genErrorPayload []⟩, proc_of_caught_str (by simp [tryBody, ho])⟩
    · cases body? with
      | none => exact ⟨⟨200, genErrorPayload []⟩, proc_of_caught_str (by simp [tryBody, ho])⟩
      | some data =>
        rw [ho] at h
        simp only [backendResponseTextual] at h
        rcases hresp : data.getField (toStr "response") with _ | r
        · exact ⟨⟨200, genErrorPayload []⟩, proc_of_caught_str (by simp [tryBody, ho, hresp])⟩
        · rw [hresp] at h
          cases r with
          | str s =>
            by_cases hse : s = []
            · subst hse
              exact ⟨⟨200, genErrorPayload []⟩,
                proc_of_caught_str (by simp [tryBody, ho, hresp, Json.truthy])⟩
            · have hst : (Json.str s).truthy = true := by simp [Json.truthy, hse]
              rcases he : extractAndParseJson parse s with _ | v
              · exact ⟨⟨200, genErrorPayload s⟩,
                  proc_of_caught_str (by simp [tryBody, ho, hresp, hst, he])⟩
              · by_cases hvt : v.truthy = true
                · by_cases hvb : isValidBundle v = true
                  · exact ⟨⟨200, v⟩,
                      proc_of_success (by simp [tryBody, ho, hresp, hst, he, hvt, hvb])⟩
                  · exact ⟨⟨200, genErrorPayload s⟩,
                      proc_of_caught_str (by simp [tryBody, ho, hresp, hst, he, hvt, hvb])⟩
                · exact ⟨⟨200, genErrorPayload s⟩,
                    proc_of_caught_str (by simp [tryBody, ho, hresp, hst, he, hvt])⟩
          | null =>
            exact ⟨⟨200, genErrorPayload []⟩,
              proc_of_caught_str (by simp [tryBody, ho, hresp, Json.truthy])⟩
          | bool b =>
            simp only [Json.truthy] at h
            have hb : b = false := by simpa using h
            subst hb
            exact ⟨⟨200, genErrorPayload []⟩,
              proc_of_caught_str (by simp [tryBody, ho, hresp, Json.truthy])⟩
          | num n =>
            simp only [Json.truthy] at h
            have hn : n = 0 := by simpa using h
            subst hn
            exact ⟨⟨200, genErrorPayload []⟩,
              proc_of_caught_str (by simp [tryBody, ho, hresp, Json.truthy])⟩
          | arr xs => simp [Json.truthy] at h
          | obj fs => simp [Json.truthy] at h

/-- A sanity check of the happy path: a valid bundle embedded in the
backend's reply is returned verbatim at HTTP 200. -/
theorem happy_path_returns_bundle :
    generateHandler bundleParse bundleBackend
      (.obj [(toStr "prompt", .str (toStr "hi"))]) = .ok ⟨200, sampleBundle⟩ := rfl

/-! ## Claims -/

/-- **C2.** For every input text in which the inclusive substring from
the first occurrence of the opening brace to the last occurrence of the
closing brace parses as JSON, extraction succeeds and returns exactly the
object obtained by strictly parsing that substring; in particular, for
any text `pre ++ mid ++ post` whose fragment `mid` starts with the
opening brace, ends with the closing brace and parses, with `pre` free of
opening braces and `post` free of closing braces (so in particular for
brace-free prose or markdown around a single well-formed JSON object),
extraction returns exactly the parse of `mid`. -/
theorem extraction_returns_strict_parse_of_brace_substring :
    (∀ (parse : Str → Option Json) (text : Str) (i j : Nat) (v : Json),
      strIndexOf text lbrace = some i →
      strLastIndexOf text rbrace = some j →
      i ≤ j →
      parse (jsSubstring text i (j + 1)) = some v →
      extractAndParseJson parse text = some v) ∧
    (∀ (parse : Str → Option Json) (pre mid post : Str) (v : Json),
      (∀ a ∈ pre, a ≠ lbrace) → (∀ a ∈ post, a ≠ rbrace) →
      mid.head? = some lbrace → mid.getLast? = some rbrace →
      parse mid = some v →
      extractAndParseJson parse (pre ++ mid ++ post) = some v) :=
  ⟨extract_general, extract_prose⟩

/-- Witness for C2 at a concrete markdown-wrapped JSON object. -/
theorem extraction_returns_strict_parse_of_brace_substring_witness :
    extractAndParseJson sampleParse
      (toStr "Sure! " ++ toStr "\x7b\"a\":1\x7d" ++ toStr " done") =
      some (.obj [(toStr "a", .num 1)]) :=
  extraction_returns_strict_parse_of_brace_substring.2 sampleParse
    (toStr "Sure! ") (toStr "\x7b\"a\":1\x7d") (toStr " done")
    (.obj [(toStr "a", .num 1)]) (by decide) (by decide) (by rfl) (by rfl) (by rfl)

/-- **C3.** Extraction fails exactly when the text has no opening brace,
or no closing brace, or the last closing brace precedes the first opening
brace (the "no JSON structure found" signal), or the inclusive substring
between those positions does not parse (the "malformed JSON" signal, with
the offending substring retained truncated to 500 characters for
diagnostics). -/
theorem extraction_failure_characterisation (parse : Str → Option Json) (text : Str) :
    (extractAndParseJson parse text = none ↔
      (strIndexOf text lbrace = none ∨ strLastIndexOf text rbrace = none ∨
       (∃ i j, strIndexOf text lbrace = some i ∧ strLastIndexOf text rbrace = some j ∧ j < i) ∨
       (∃ i j, strIndexOf text lbrace = some i ∧ strLastIndexOf text rbrace = some j ∧ i ≤ j ∧
          parse (jsSubstring text i (j + 1)) = none))) ∧
    (extractAndParseJsonFull parse text = .noStructure ↔
      (strIndexOf text lbrace = none ∨ strLastIndexOf text rbrace = none ∨
       (∃ i j, strIndexOf text lbrace = some i ∧ strLastIndexOf text rbrace = some j ∧ j < i))) ∧
    (∀ snip, extractAndParseJsonFull parse text = .malformed snip →
       ∃ i j, strIndexOf text lbrace = some i ∧ strLastIndexOf text rbrace = some j ∧ i ≤ j ∧
         parse (jsSubstring text i (j + 1)) = none ∧
         snip = jsSubstring (jsSubstring text i (j + 1)) 0 500) := by
  rcases h1 : strIndexOf text lbrace with _ | i
  · refine ⟨?_, ?_, ?_⟩
    · simp [extractAndParseJson, extractAndParseJsonFull, h1]
    · simp [extractAndParseJsonFull, h1]
    · intro snip h
      simp [extractAndParseJsonFull, h1] at h
  · rcases h2 : strLastIndexOf text rbrace with _ | j
    · refine ⟨?_, ?_, ?_⟩
      · simp [extractAndParseJson, extractAndParseJsonFull, h1, h2]
      · simp [extractAndParseJsonFull, h1, h2]
      · intro snip h
        simp [extractAndParseJsonFull, h1, h2] at h
    · by_cases hij : j < i
      · refine ⟨?_, ?_, ?_⟩
        · simp [extractAndParseJson, extractAndParseJsonFull, h1, h2, hij]
        · simp [extractAndParseJsonFull, h1, h2, hij]
        · intro snip h
          simp [extractAndParseJsonFull, h1, h2, hij] at h
      · rcases hp : parse (jsSubstring text i (j + 1)) with _ | v
        · refine ⟨?_, ?_, ?_⟩
          · simp [extractAndParseJson, extractAndParseJsonFull, h1, h2, hij, hp]
            omega
          · simp [extractAndParseJsonFull, h1, h2, hij, hp]
          · intro snip h
            simp [extractAndParseJsonFull, h1, h2, hij, hp] at h
            exact ⟨i, j, rfl, rfl, by omega, hp, h.symm⟩
        · refine ⟨?_, ?_, ?_⟩
          · simp [extractAndParseJson, extractAndParseJsonFull, h1, h2, hij, hp]
          · simp [extractAndParseJsonFull, h1, h2, hij, hp]
          · intro snip h
            simp [extractAndParseJsonFull, h1, h2, hij, hp] at h

/-- Witness for C3: a malformed brace span makes extraction fail. -/
theorem extraction_failure_characterisation_witness :
    extractAndParseJson rejectParse (toStr "a\x7bZ\x7db") = none :=
  (extraction_failure_characterisation rejectParse (toStr "a\x7bZ\x7db")).1.mpr
    (Or.inr (Or.inr (Or.inr ⟨1, 3, by rfl, by rfl, by omega, by rfl⟩)))

/-- **C1.** For every request to one of the three endpoints that passes
field validation (the required fields present as non-empty strings — for
`/generate`, non-whitespace after trimming), if the backend call fails,
or its reply lacks a truthy `response` text, or extraction fails, or the
parsed result is not a valid bundle, then the endpoint responds HTTP 200
(not an error status) with a body carrying a non-empty error string,
errorType `"GENERATION_ERROR"` and a rawResponse of at most 1000
characters; and no internal retry is performed: the response depends on
the network only through the outcome of the first (single) call. -/
theorem generation_failure_reported_as_http200_payload
    (parse : Str → Option Json) (backend : Nat → FetchOutcome) (body : Json) :
    (∀ s, body.getField (toStr "prompt") = some (.str s) → (jsTrim s).isEmpty = false →
      generationFails parse (backend 0) →
      isGenerationErrorResponse (generateHandler parse backend body)) ∧
    (∀ p c, body.getField (toStr "prompt") = some p → body.getField (toStr "code") = some c →
      p.truthy = true → c.truthy = true →
      generationFails parse (backend 0) →
      isGenerationErrorResponse (followupHandler parse backend body)) ∧
    (∀ p s, body.getField (toStr "originalPrompt") = some p →
      body.getField (toStr "badJson") = some (.str s) →
      p.truthy = true → s ≠ [] →
      generationFails parse (backend 0) →
      isGenerationErrorResponse (retryHandler parse backend body)) ∧
    (∀ backend', backend' 0 = backend 0 →
      generateHandler parse backend' body = generateHandler parse backend body ∧
      followupHandler parse backend' body = followupHandler parse backend body ∧
      retryHandler parse backend' body = retryHandler parse backend body) := by
  refine ⟨?_, ?_, ?_, ?_⟩
  · intro s hp ht hfail
    have hsne : s ≠ [] := by
      intro hnil
      subst hnil
      simp [jsTrim] at ht
    have hst : (Json.str s).truthy = true := by simp [Json.truthy, hsne]
    have hred : generateHandler parse backend body = processGenerativeRequest parse backend s := by
      simp [generateHandler, hp, hst, ht]
    rw [hred]
    obtain ⟨raw, hr⟩ := @proc_generationFails parse backend s hfail
    rw [hr]
    exact isGenerationErrorResponse_payload raw
  · intro p c hp hc hpt hct hfail
    have hred : followupHandler parse backend body =
        processGenerativeRequest parse backend (followupFullPrompt c p) := by
      simp [followupHandler, hp, hc, hpt, hct]
    rw [hred]
    obtain ⟨raw, hr⟩ := @proc_generationFails parse backend (followupFullPrompt c p) hfail
    rw [hr]
    exact isGenerationErrorResponse_payload raw
  · intro p s hp hb hpt hsne hfail
    have hst : (Json.str s).truthy = true := by simp [Json.truthy, hsne]
    have hred : retryHandler parse backend body =
        processGenerativeRequest parse backend (retryFullPrompt p (jsSlice s 0 200)) := by
      simp [retryHandler, hp, hb, hpt, hst, badJsonSnippet]
    rw [hred]
    obtain ⟨raw, hr⟩ := @proc_generationFails parse backend (retryFullPrompt p (jsSlice s 0 200)) hfail
    rw [hr]
    exact isGenerationErrorResponse_payload raw
  · intro backend' hb0
    refine ⟨?_, ?_, ?_⟩
    · simp [generateHandler, proc_congr hb0]
    · simp [followupHandler, proc_congr hb0]
    · simp [retryHandler, proc_congr hb0]

/-- Witness for C1: a valid `/generate` request against an unreachable
backend yields the HTTP-200 generation-error payload. -/
theorem generation_failure_reported_as_http200_payload_witness :
    isGenerationErrorResponse (generateHandler rejectParse downBackend
      (.obj [(toStr "prompt", .str (toStr "make a site"))])) :=
  (generation_failure_reported_as_http200_payload rejectParse downBackend
    (.obj [(toStr "prompt", .str (toStr "make a site"))])).1
    (toStr "make a site") rfl (by decide) trivial

/-- **C4.** For every successfully extracted value, if any of the three
fields `html`, `css`, `js` is absent, not a string, or empty, the shared
procedure responds with the generation-error payload and never returns
that value; only a value with all three fields present as non-empty
strings is returned as the success bundle. -/
theorem bundle_shape_validation (parse : Str → Option Json) (backend : Nat → FetchOutcome)
    (prompt : Str) (data : Json) (s : Str) (v : Json)
    (hb : backend 0 = .replies true (some data))
    (hr : data.getField (toStr "response") = some (.str s))
    (hs : s ≠ [])
    (he : extractAndParseJson parse s = some v) :
    (isValidBundle v = false →
       processGenerativeRequest parse backend prompt = .ok ⟨200, genErrorPayload s⟩) ∧
    (isValidBundle v = true →
       processGenerativeRequest parse backend prompt = .ok ⟨200, v⟩) := by
  have htruthy : (Json.str s).truthy = true := by simp [Json.truthy, hs]
  constructor
  · intro hv
    apply proc_of_caught_str
    by_cases hvt : v.truthy = true
    · simp [tryBody, hb, hr, htruthy, he, hv, hvt]
    · simp [tryBody, hb, hr, htruthy, he, hvt]
  · intro hv
    apply proc_of_success
    have hvt := truthy_of_isValidBundle hv
    simp [tryBody, hb, hr, htruthy, he, hv, hvt]

/-- Witness for C4 at the spec's own example: a bundle whose `js` field
is empty is rejected and the generation-error payload is returned. -/
theorem bundle_shape_validation_witness :
    processGenerativeRequest emptyJsParse emptyJsBackend (toStr "p") =
      .ok ⟨200, genErrorPayload (toStr "ok \x7bE\x7d")⟩ :=
  (bundle_shape_validation emptyJsParse emptyJsBackend (toStr "p")
    (.obj [(toStr "response", .str (toStr "ok \x7bE\x7d"))]) (toStr "ok \x7bE\x7d")
    emptyJsBundle rfl rfl (by decide) (by rfl)).1 (by rfl)

/-- **C5.** For every `/generate` request whose `prompt` field is absent
or a string, the response is 400 with the ValidationError body iff the
prompt is missing, empty, or whitespace-only after trimming; otherwise
the prompt is forwarded unchanged (untrimmed) to the shared generation
procedure. -/
theorem generate_validation_and_forwarding (parse : Str → Option Json)
    (backend : Nat → FetchOutcome) (body : Json)
    (htyped : body.getField (toStr "prompt") = none ∨
      ∃ s, body.getField (toStr "prompt") = some (.str s)) :
    (generateHandler parse backend body =
        .ok ⟨400, validationPayload (toStr "prompt is required")⟩ ↔
      (body.getField (toStr "prompt") = none ∨
       ∃ s, body.getField (toStr "prompt") = some (.str s) ∧ (jsTrim s).isEmpty = true)) ∧
    (∀ s, body.getField (toStr "prompt") = some (.str s) → (jsTrim s).isEmpty = false →
      generateHandler parse backend body = processGenerativeRequest parse backend s) := by
  constructor
  · rcases htyped with hnone | ⟨s, hsome⟩
    · have h400 : generateHandler parse backend body =
          .ok ⟨400, validationPayload (toStr "prompt is required")⟩ := by
        simp [generateHandler, hnone, jsTrim]
      exact iff_of_true h400 (Or.inl hnone)
    · by_cases hse : s = []
      · subst hse
        have h400 : generateHandler parse backend body =
            .ok ⟨400, validationPayload (toStr "prompt is required")⟩ := by
          simp [generateHandler, hsome, Json.truthy, jsTrim]
        exact iff_of_true h400 (Or.inr ⟨[], hsome, by simp [jsTrim]⟩)
      · have hst : (Json.str s).truthy = true := by simp [Json.truthy, hse]
        by_cases htr : (jsTrim s).isEmpty = true
        · have h400 : generateHandler parse backend body =
              .ok ⟨400, validationPayload (toStr "prompt is required")⟩ := by
            simp [generateHandler, hsome, hst, htr]
          exact iff_of_true h400 (Or.inr ⟨s, hsome, htr⟩)
        · have hfwd : generateHandler parse backend body =
              processGenerativeRequest parse backend s := by
            simp [generateHandler, hsome, hst, htr]
          apply iff_of_false
          · rw [hfwd]
            intro hcontra
            rcases proc_shape parse backend s with ⟨b, hb⟩ | hb
            · rw [hb] at hcontra
              simp at hcontra
            · rw [hb] at hcontra
              simp at hcontra
          · rintro (h | ⟨s', hs', htr'⟩)
            · rw [h] at hsome
              exact Option.noConfusion hsome
            · rw [hsome] at hs'
              have : s = s' := by simpa using hs'
              subst this
              exact htr (by exact htr')
  · intro s hs ht
    have hse : s ≠ [] := by
      intro hnil
      subst hnil
      simp [jsTrim] at ht
    have hst : (Json.str s).truthy = true := by simp [Json.truthy, hse]
    simp [generateHandler, hs, hst, ht]

/-- Witness for C5: a whitespace-only prompt is rejected with 400. -/
theorem generate_validation_and_forwarding_witness :
    generateHandler rejectParse downBackend
      (.obj [(toStr "prompt", .str (toStr "   "))]) =
      .ok ⟨400, validationPayload (toStr "prompt is required")⟩ :=
  ((generate_validation_and_forwarding rejectParse downBackend
      (.obj [(toStr "prompt", .str (toStr "   "))])
      (Or.inr ⟨toStr "   ", rfl⟩)).1).mpr
    (Or.inr ⟨toStr "   ", rfl, by decide⟩)

/-- Counterexample to C6 as stated: in a `/followup` request whose
`prompt` and `code` fields are both *present* but whose `prompt` is the
empty string, the handler answers 400 (ValidationError) and does not run
the generation procedure, whereas the claim asserts that whenever both
fields are present the composite instruction is constructed and the
generation procedure runs. -/
theorem followup_empty_present_field_counterexample :
    followupHandler rejectParse downBackend emptyPromptFollowupBody =
      .ok ⟨400, validationPayload (toStr "A prompt and code are required.")⟩ ∧
    followupHandler rejectParse downBackend emptyPromptFollowupBody ≠
      processGenerativeRequest rejectParse downBackend
        (followupFullPrompt (.str (toStr "x")) (.str [])) := by
  constructor
  · rfl
  · intro h
    have h2 : processGenerativeRequest rejectParse downBackend
        (followupFullPrompt (.str (toStr "x")) (.str [])) =
        .ok ⟨200, genErrorPayload []⟩ := rfl
    rw [h2] at h
    have h1 : followupHandler rejectParse downBackend emptyPromptFollowupBody =
        .ok ⟨400, validationPayload (toStr "A prompt and code are required.")⟩ := rfl
    rw [h1] at h
    have := congrArg (fun x => match x with | Except.ok r => r.status | Except.error _ => 0) h
    simp at this

/-- **C6 (amended).** `/followup` responds 400 with the ValidationError
body, without calling the inference backend, when `prompt` or `code` is
missing **or falsy** (in particular present but empty); when both are
present and truthy, the composite instruction is constructed and the
generation procedure runs on it.  Likewise `/retry` for `originalPrompt`
and `badJson`, where a present non-empty string `badJson` leads to the
generation procedure running on the composite retry instruction. -/
theorem followup_retry_validation_amended (parse : Str → Option Json)
    (backend : Nat → FetchOutcome) (body : Json) :
    ((truthyField (body.getField (toStr "prompt")) = false ∨
      truthyField (body.getField (toStr "code")) = false) →
      followupHandler parse backend body =
        .ok ⟨400, validationPayload (toStr "A prompt and code are required.")⟩ ∧
      (∀ backend', followupHandler parse backend' body = followupHandler parse backend body)) ∧
    (∀ p c, body.getField (toStr "prompt") = some p → body.getField (toStr "code") = some c →
      p.truthy = true → c.truthy = true →
      followupHandler parse backend body =
        processGenerativeRequest parse backend (followupFullPrompt c p)) ∧
    ((truthyField (body.getField (toStr "originalPrompt")) = false ∨
      truthyField (body.getField (toStr "badJson")) = false) →
      retryHandler parse backend body =
        .ok ⟨400, validationPayload (toStr "Original prompt and bad JSON are required.")⟩ ∧
      (∀ backend', retryHandler parse backend' body = retryHandler parse backend body)) ∧
    (∀ p s, body.getField (toStr "originalPrompt") = some p →
      body.getField (toStr "badJson") = some (.str s) → p.truthy = true → s ≠ [] →
      retryHandler parse backend body =
        processGenerativeRequest parse backend (retryFullPrompt p (jsSlice s 0 200))) := by
  refine ⟨?_, ?_, ?_, ?_⟩
  · intro h
    have key : ∀ bk : Nat → FetchOutcome, followupHandler parse bk body =
        .ok ⟨400, validationPayload (toStr "A prompt and code are required.")⟩ := by
      intro bk
      rcases hp : body.getField (toStr "prompt") with _ | p
      · simp [followupHandler, hp]
      · rcases hc : body.getField (toStr "code") with _ | c
        · simp [followupHandler, hp, hc]
        · simp only [hp, hc, truthyField] at h
          rcases h with h | h <;> simp [followupHandler, hp, hc, h]
    exact ⟨key backend, fun backend' => (key backend').trans (key backend).symm⟩
  · intro p c hp hc hpt hct
    simp [followupHandler, hp, hc, hpt, hct]
  · intro h
    have key : ∀ bk : Nat → FetchOutcome, retryHandler parse bk body =
        .ok ⟨400, validationPayload (toStr "Original prompt and bad JSON are required.")⟩ := by
      intro bk
      rcases hp : body.getField (toStr "originalPrompt") with _ | p
      · simp [retryHandler, hp]
      · rcases hc : body.getField (toStr "badJson") with _ | c
        · simp [retryHandler, hp, hc]
        · simp only [hp, hc, truthyField] at h
          rcases h with h | h <;> simp [retryHandler, hp, hc, h]
    exact ⟨key backend, fun backend' => (key backend').trans (key backend).symm⟩
  · intro p s hp hb hpt hsne
    have hst : (Json.str s).truthy = true := by simp [Json.truthy, hsne]
    simp [retryHandler, hp, hb, hpt, hst, badJsonSnippet]

/-- Witness for the amended C6: a body with both fields absent gets the
400 ValidationError from `/followup`. -/
theorem followup_retry_validation_amended_witness :
    followupHandler rejectParse downBackend (Json.obj []) =
      .ok ⟨400, validationPayload (toStr "A prompt and code are required.")⟩ :=
  ((followup_retry_validation_amended rejectParse downBackend (Json.obj [])).1
    (Or.inl rfl)).1

/-- **C7.** For every valid `/retry` request, the composite instruction
passed to the shared procedure — and forwarded as the `prompt` field of
the backend request — quotes exactly the first 200 characters of the
failed output `badJson` (the whole string when it is at most 200
characters long) together with the original instruction. -/
theorem retry_prompt_quotes_first_200_chars (sys model : Str) (op bj : Str) :
    (ollamaRequestOf sys model (retryFullPrompt (.str op) (jsSlice bj 0 200))).prompt =
      toStr "Your previous response was invalid JSON. Invalid response snippet: \"" ++
      bj.take 200 ++ toStr "...\". The original request was: \"" ++ op ++
      toStr "\". You MUST try again and provide ONLY a valid JSON object." ∧
    (bj.length ≤ 200 → jsSlice bj 0 200 = bj) ∧
    (∀ (parse : Str → Option Json) (backend : Nat → FetchOutcome) (body : Json),
      body.getField (toStr "originalPrompt") = some (.str op) →
      body.getField (toStr "badJson") = some (.str bj) → op ≠ [] → bj ≠ [] →
      retryHandler parse backend body =
        processGenerativeRequest parse backend
          (retryFullPrompt (.str op) (jsSlice bj 0 200))) := by
  refine ⟨?_, ?_, ?_⟩
  · simp [ollamaRequestOf, retryFullPrompt, Json.jsToString, jsSlice_zero]
  · intro hle
    rw [jsSlice_zero]
    exact List.take_of_length_le hle
  · intro parse backend body hp hb hop hbj
    have hopt : (Json.str op).truthy = true := by simp [Json.truthy, hop]
    have hbjt : (Json.str bj).truthy = true := by simp [Json.truthy, hbj]
    simp [retryHandler, hp, hb, hopt, hbjt, badJsonSnippet]

/-- Witness for C7: a short failed output is quoted whole. -/
theorem retry_prompt_quotes_first_200_chars_witness :
    jsSlice (toStr "oops") 0 200 = toStr "oops" :=
  (retry_prompt_quotes_first_200_chars [] [] (toStr "p") (toStr "oops")).2.1 (by decide)

/-- **C8.** Each client helper serializes its arguments into a JSON body
sent by POST to the relay;  on a non-success HTTP status it raises an
error whose message is the server-supplied `error` field of the parsed
error body, or the generic fallback when that field is absent;  on
transport-level failure the underlying error propagates to the caller;
and no retry is performed — the result depends on the network only
through the outcome of the single call. -/
theorem client_helper_behaviour (baseUrl : Str) (prompt code op bj : Json)
    (net : Nat → ClientOutcome) :
    (generateCodeRequest baseUrl prompt =
      ⟨baseUrl ++ '/' :: toStr "generate", toStr "POST", toStr "application/json",
        Json.stringify (.obj [(toStr "prompt", prompt)])⟩ ∧
     followUpRequest baseUrl prompt code =
      ⟨baseUrl ++ '/' :: toStr "followup", toStr "POST", toStr "application/json",
        Json.stringify (.obj [(toStr "prompt", prompt), (toStr "code", code)])⟩ ∧
     retryWithJsonRequest baseUrl op bj =
      ⟨baseUrl ++ '/' :: toStr "retry", toStr "POST", toStr "application/json",
        Json.stringify (.obj [(toStr "originalPrompt", op), (toStr "badJson", bj)])⟩) ∧
    (∀ errData m, net 0 = .replies false (some errData) →
      errData.getField (toStr "error") = some (.str m) → m ≠ [] →
      generateCode net prompt = .error (.apiError m) ∧
      followUp net prompt code = .error (.apiError m) ∧
      retryWithJson net op bj = .error (.apiError m)) ∧
    (∀ errData, net 0 = .replies false (some errData) →
      errData.getField (toStr "error") = none →
      generateCode net prompt = .error (.apiError apiFallbackMessage) ∧
      followUp net prompt code = .error (.apiError apiFallbackMessage) ∧
      retryWithJson net op bj = .error (.apiError apiFallbackMessage)) ∧
    (net 0 = .netThrows →
      generateCode net prompt = .error .transport ∧
      followUp net prompt code = .error .transport ∧
      retryWithJson net op bj = .error .transport) ∧
    (∀ net', net' 0 = net 0 →
      generateCode net' prompt = generateCode net prompt ∧
      followUp net' prompt code = followUp net prompt code ∧
      retryWithJson net' op bj = retryWithJson net op bj) := by
  refine ⟨⟨rfl, rfl, rfl⟩, ?_, ?_, ?_, ?_⟩
  · intro errData m h0 hm hne
    have hmt : (Json.str m).truthy = true := by simp [Json.truthy, hne]
    refine ⟨?_, ?_, ?_⟩ <;>
      simp [generateCode, followUp, retryWithJson, sendRequest, h0, hm, hmt, Json.jsToString]
  · intro errData h0 hm
    refine ⟨?_, ?_, ?_⟩ <;>
      simp [generateCode, followUp, retryWithJson, sendRequest, h0, hm]
  · intro h0
    refine ⟨?_, ?_, ?_⟩ <;>
      simp [generateCode, followUp, retryWithJson, sendRequest, h0]
  · intro net' hn
    refine ⟨?_, ?_, ?_⟩ <;>
      simp [generateCode, followUp, retryWithJson, sendRequest, hn]

/-- Witness for C8: a non-ok reply with a server-supplied message makes
`generateCode` raise exactly that message. -/
theorem client_helper_behaviour_witness :
    generateCode errNet (.str (toStr "p")) = .error (.apiError (toStr "boom")) :=
  ((client_helper_behaviour (toStr "http://x") (.str (toStr "p"))
      Json.null Json.null Json.null errNet).2.1
    (.obj [(toStr "error", .str (toStr "boom"))]) (toStr "boom") rfl rfl (by decide)).1

/-- Counterexample to C9 as stated: a `/generate` request whose `prompt`
field is the (truthy) number 5 makes `userPrompt.trim()` throw a
`TypeError` that escapes the async handler as an unhandled rejection,
instead of being converted into an HTTP response. -/
theorem nonstring_prompt_escapes_handler :
    generateHandler rejectParse downBackend (.obj [(toStr "prompt", .num 5)]) =
      .error .typeError := rfl

/-- **C9 (amended).** For every inbound request whose relevant body
fields are strings (or absent, or falsy), and whose backend reply's
`response` field — if present and truthy — is a string, request handling
never throws out of the endpoint handler: every such request produces an
HTTP response (400 ValidationError or the 200 payload). -/
theorem handlers_do_not_throw_on_typed_requests (parse : Str → Option Json)
    (backend : Nat → FetchOutcome) (body : Json)
    (hb : backendResponseTextual (backend 0) = true) :
    (isStrOrFalsy (body.getField (toStr "prompt")) = true →
      ∃ r, generateHandler parse backend body = .ok r) ∧
    (∃ r, followupHandler parse backend body = .ok r) ∧
    (isStrOrFalsy (body.getField (toStr "badJson")) = true →
      ∃ r, retryHandler parse backend body = .ok r) := by
  refine ⟨?_, ?_, ?_⟩
  · intro hty
    rcases hp : body.getField (toStr "prompt") with _ | v
    · exact ⟨⟨400, validationPayload (toStr "prompt is required")⟩,
        by simp [generateHandler, hp, jsTrim]⟩
    · rw [hp] at hty
      cases v with
      | str s =>
        by_cases hst : (Json.str s).truthy = true
        · by_cases htr : (jsTrim s).isEmpty = true
          · exact ⟨⟨400, validationPayload (toStr "prompt is required")⟩,
              by simp [generateHandler, hp, hst, htr]⟩
          · obtain ⟨r, hr⟩ := proc_ok_of_textual parse backend s hb
            exact ⟨r, by simp [generateHandler, hp, hst, htr, hr]⟩
        · have hse : s = [] := by
            simp [Json.truthy] at hst
            exact hst
          subst hse
          exact ⟨⟨400, validationPayload (toStr "prompt is required")⟩,
            by simp [generateHandler, hp, Json.truthy, jsTrim]⟩
      | null =>
        exact ⟨⟨400, validationPayload (toStr "prompt is required")⟩,
          by simp [generateHandler, hp, Json.truthy, jsTrim]⟩
      | bool b =>
        have hbf : b = false := by simpa [isStrOrFalsy, Json.truthy] using hty
        subst hbf
        exact ⟨⟨400, validationPayload (toStr "prompt is required")⟩,
          by simp [generateHandler, hp, Json.truthy, jsTrim]⟩
      | num n =>
        have hn : n = 0 := by simpa [isStrOrFalsy, Json.truthy] using hty
        subst hn
        exact ⟨⟨400, validationPayload (toStr "prompt is required")⟩,
          by simp [generateHandler, hp, Json.truthy, jsTrim]⟩
      | arr xs => simp [isStrOrFalsy, Json.truthy] at hty
      | obj fs => simp [isStrOrFalsy, Json.truthy] at hty
  · rcases hp : body.getField (toStr "prompt") with _ | p
    · exact ⟨⟨400, validationPayload (toStr "A prompt and code are required.")⟩,
        by simp [followupHandler, hp]⟩
    · rcases hc : body.getField (toStr "code") with _ | c
      · exact ⟨⟨400, validationPayload (toStr "A prompt and code are required.")⟩,
          by simp [followupHandler, hp, hc]⟩
      · by_cases hpt : p.truthy = true
        · by_cases hct : c.truthy = true
          · obtain ⟨r, hr⟩ := proc_ok_of_textual parse backend (followupFullPrompt c p) hb
            exact ⟨r, by simp [followupHandler, hp, hc, hpt, hct, hr]⟩
          · exact ⟨⟨400, validationPayload (toStr "A prompt and code are required.")⟩,
              by simp [followupHandler, hp, hc, hpt, hct]⟩
        · exact ⟨⟨400, validationPayload (toStr "A prompt and code are required.")⟩,
            by simp [followupHandler, hp, hc, hpt]⟩
  · intro hty
    rcases hp : body.getField (toStr "originalPrompt") with _ | p
    · exact ⟨⟨400, validationPayload (toStr "Original prompt and bad JSON are required.")⟩,
        by simp [retryHandler, hp]⟩
    · rcases hc : body.getField (toStr "badJson") with _ | c
      · exact ⟨⟨400, validationPayload (toStr "Original prompt and bad JSON are required.")⟩,
          by simp [retryHandler, hp, hc]⟩
      · rw [hc] at hty
        by_cases hpt : p.truthy = true
        · cases c with
          | str s =>
            by_cases hst : (Json.str s).truthy = true
            · obtain ⟨r, hr⟩ :=
                proc_ok_of_textual parse backend (retryFullPrompt p (jsSlice s 0 200)) hb
              exact ⟨r, by simp [retryHandler, hp, hc, hpt, hst, badJsonSnippet, hr]⟩
            · exact ⟨⟨400, validationPayload (toStr "Original prompt and bad JSON are required.")⟩,
                by simp [retryHandler, hp, hc, hpt, hst]⟩
          | null =>
            exact ⟨⟨400, validationPayload (toStr "Original prompt and bad JSON are required.")⟩,
              by simp [retryHandler, hp, hc, hpt, Json.truthy]⟩
          | bool b =>
            have hbf : b = false := by simpa [isStrOrFalsy, Json.truthy] using hty
            subst hbf
            exact ⟨⟨400, validationPayload (toStr "Original prompt and bad JSON are required.")⟩,
              by simp [retryHandler, hp, hc, hpt, Json.truthy]⟩
          | num n =>
            have hn : n = 0 := by simpa [isStrOrFalsy, Json.truthy] using hty
            subst hn
            exact ⟨⟨400, validationPayload (toStr "Original prompt and bad JSON are required.")⟩,
              by simp [retryHandler, hp, hc, hpt, Json.truthy]⟩
          | arr xs => simp [isStrOrFalsy, Json.truthy] at hty
          | obj fs => simp [isStrOrFalsy, Json.truthy] at hty
        · exact ⟨⟨400, validationPayload (toStr "Original prompt and bad JSON are required.")⟩,
            by simp [retryHandler, hp, hc, hpt]⟩

/-- Witness for the amended C9: an empty body yields an HTTP response
from `/followup`. -/
theorem handlers_do_not_throw_on_typed_requests_witness :
    ∃ r, followupHandler rejectParse downBackend (Json.obj []) = .ok r :=
  (handlers_do_not_throw_on_typed_requests rejectParse downBackend (Json.obj []) rfl).2.1

/-- **C10.** When the failure occurs before the backend's output text is
obtained (backend unreachable, non-success status, non-JSON reply, or
reply with a missing/falsy `response` field), the generation-error
payload's `rawResponse` is the empty string; once a non-empty output
text has been read and a later stage fails, `rawResponse` carries the
first 1000 characters of that output. -/
theorem rawResponse_empty_before_output_read (parse : Str → Option Json)
    (backend : Nat → FetchOutcome) (prompt : Str) :
    ((backend 0 = .throws ∨ (∃ b, backend 0 = .replies false b) ∨
      backend 0 = .replies true none ∨
      (∃ data, backend 0 = .replies true (some data) ∧
        (data.getField (toStr "response") = none ∨
         ∃ r, data.getField (toStr "response") = some r ∧ r.truthy = false))) →
      processGenerativeRequest parse backend prompt = .ok ⟨200, genErrorPayload []⟩ ∧
      (genErrorPayload []).getField (toStr "rawResponse") = some (.str [])) ∧
    (∀ data s, backend 0 = .replies true (some data) →
      data.getField (toStr "response") = some (.str s) → s ≠ [] →
      (extractAndParseJson parse s = none ∨
        (∃ v, extractAndParseJson parse s = some v ∧
          (v.truthy = false ∨ isValidBundle v = false))) →
      processGenerativeRequest parse backend prompt = .ok ⟨200, genErrorPayload s⟩ ∧
      (genErrorPayload s).getField (toStr "rawResponse") = some (.str (s.take 1000))) := by
  constructor
  · intro h
    refine ⟨?_, rfl⟩
    apply proc_of_caught_str
    rcases h with h | ⟨b, h⟩ | h | ⟨data, h, hresp⟩
    · simp [tryBody, h]
    · simp [tryBody, h]
    · simp [tryBody, h]
    · rcases hresp with hresp | ⟨r, hr, hrf⟩
      · simp [tryBody, h, hresp]
      · simp [tryBody, h, hr, hrf]
  · intro data s hb hr hs hfail
    have htruthy : (Json.str s).truthy = true := by simp [Json.truthy, hs]
    constructor
    · apply proc_of_caught_str
      rcases hfail with he | ⟨v, he, hvf | hvb⟩
      · simp [tryBody, hb, hr, htruthy, he]
      · simp [tryBody, hb, hr, htruthy, he, hvf]
      · by_cases hvt : v.truthy = true
        · simp [tryBody, hb, hr, htruthy, he, hvb, hvt]
        · simp [tryBody, hb, hr, htruthy, he, hvt]
    · have hrw : (genErrorPayload s).getField (toStr "rawResponse") =
          some (.str (jsSubstring s 0 1000)) := rfl
      rw [hrw, jsSubstring_zero]

/-- Witness for C10: an unreachable backend yields an empty rawResponse. -/
theorem rawResponse_empty_before_output_read_witness :
    processGenerativeRequest rejectParse downBackend (toStr "p") =
      .ok ⟨200, genErrorPayload []⟩ ∧
    (genErrorPayload []).getField (toStr "rawResponse") = some (.str []) :=
  (rawResponse_empty_before_output_read rejectParse downBackend (toStr "p")).1 (Or.inl rfl)

end Buddly
